import Mathlib

/-!
Verification of the Autovisory dialogue-orchestration app (autovisory_app.py).

Modelling conventions used throughout this file:

* JSON values produced by `json.loads` are modelled by the inductive type `Json`
  (numbers are integers, as every prompt in the app demands integer prices; the
  claims under study never involve floating point).  A successfully parsed model
  reply is always a JSON object, because the app always extracts a brace-delimited
  span before parsing, so parse results are represented by `Obj`, an association
  list of fields.
* The external generative model is a black box: the app only ever sends it a
  prompt string and consumes the reply text.  It is modelled by an oracle
  `Env.gen : Nat → Except String String` giving, for each successive call, either
  the reply text or a raised exception.  `json.loads` is likewise an arbitrary
  parameter `Env.jl : String → Except String Obj`; theorems quantify over it.
* Python exceptions that the repository code does not catch are modelled by the
  `Except String` monad: a `.error` value is an uncaught exception escaping the
  dispatch block.  Fallible primitive operations (`d[k]`, `d.get`, iteration,
  `>`, `", ".join`) are translated with their Python semantics, including the
  exceptions they can raise.
* `re.findall` with the concrete pattern of `extract_car_models` is translated
  as a direct left-to-right scanner (`scanModels`) implementing the ordered-alternation
  and greedy semantics of that pattern; the DOTALL brace-span search of re.search
  is `extractBrace` (first left brace through last right brace).
-/

/-- A JSON value as produced by `json.loads` (numbers restricted to integers,
see the module docstring). -/
inductive Json where
  | null : Json
  | bool : Bool → Json
  | int : Int → Json
  | str : String → Json
  | arr : List Json → Json
  | obj : List (String × Json) → Json

/-- A parsed JSON object: association list of fields. -/
abbrev Obj := List (String × Json)

mutual
/-- Python `repr` of a JSON value (escaping inside string literals is not
modelled; no claim exercises it). -/
def Json.pyRepr : Json → String
  | .null => "None"
  | .bool b => if b then "True" else "False"
  | .int n => toString n
  | .str s => "\x27" ++ s ++ "\x27"
  | .arr xs => "[" ++ String.intercalate ", " (reprListAux xs) ++ "]"
  | .obj kvs => "\x7b" ++ String.intercalate ", " (reprObjAux kvs) ++ "\x7d"

/-- `repr` of the elements of a JSON array. -/
def reprListAux : List Json → List String
  | [] => []
  | x :: rest => x.pyRepr :: reprListAux rest

/-- `repr` of the fields of a JSON object. -/
def reprObjAux : List (String × Json) → List String
  | [] => []
  | (key, v) :: rest => ("\x27" ++ key ++ "\x27: " ++ v.pyRepr) :: reprObjAux rest
end

/-- Python `str()` of a JSON value (as interpolated by an f-string). -/
def Json.toPyStr : Json → String
  | .str s => s
  | j => j.pyRepr

example : Json.toPyStr (Json.arr [Json.null, Json.int 3]) = "[None, 3]" := rfl
example : Json.toPyStr Json.null = "None" := rfl

/-- Python truthiness of a JSON value (`if x:`). -/
def Json.truthy : Json → Bool
  | .null => false
  | .bool b => b
  | .int n => n != 0
  | .str s => s != ""
  | .arr xs => !xs.isEmpty
  | .obj kvs => !kvs.isEmpty

/-- `d.get(key, default)` on a parsed JSON object (association list). -/
def objGetD (o : Obj) (key : String) (d : Json) : Json :=
  match o.lookup key with
  | some v => v
  | none => d

/-- `x.get(key, default)` on an arbitrary JSON value: raises `AttributeError`
when `x` is not a dict, as in Python. -/
def Json.get (j : Json) (key : String) (d : Json) : Except String Json :=
  match j with
  | .obj kvs => .ok (objGetD kvs key d)
  | _ => .error "AttributeError"

/-- `x[key]` subscription: `KeyError` when the key is absent, `TypeError` when
`x` is not a dict. -/
def Json.idx (j : Json) (key : String) : Except String Json :=
  match j with
  | .obj kvs =>
    match kvs.lookup key with
    | some v => .ok v
    | none => .error "KeyError"
  | _ => .error "TypeError"

/-- Python iteration `for x in v`: lists yield elements, strings yield
one-character strings, dicts yield their keys; other values raise `TypeError`. -/
def Json.pyIter : Json → Except String (List Json)
  | .arr xs => .ok xs
  | .str s => .ok (s.data.map (fun c => Json.str (String.mk [c])))
  | .obj kvs => .ok (kvs.map (fun kv => Json.str kv.1))
  | _ => .error "TypeError"

/-- Python `v > 0` on a JSON value: defined for ints and bools (bool is an int
subtype in Python), `TypeError` otherwise. -/
def Json.gtZero : Json → Except String Bool
  | .int n => .ok (decide (0 < n))
  | .bool b => .ok b
  | _ => .error "TypeError"

/-- Join every element of a list, all of which must be strings (`str.join`),
raising `TypeError` at the first non-string element as Python does. -/
def pyJoinStrs : List Json → Except String (List String)
  | [] => .ok []
  | Json.str s :: rest =>
    match pyJoinStrs rest with
    | .ok ss => .ok (s :: ss)
    | .error e => .error e
  | _ :: _ => .error "TypeError"

/-- `sep.join(v)`: iterate `v` and join its (string) elements. -/
def pyJoin (sep : String) (j : Json) : Except String String :=
  match j.pyIter with
  | .error e => .error e
  | .ok items =>
    match pyJoinStrs items with
    | .error e => .error e
    | .ok ss => .ok (String.intercalate sep ss)

/-- Group the reversed digit list of a number into blocks of three
(least-significant block first). -/
def chunk3 : List Char → List (List Char)
  | [] => []
  | [a] => [[a]]
  | [a, b] => [[a, b]]
  | a :: b :: c :: rest => [a, b, c] :: chunk3 rest

/-- Python `f"\x7bn:,\x7d"` on a natural number: decimal digits with a comma
every three digits. -/
def natComma (n : Nat) : String :=
  let ds := (Nat.toDigits 10 n).reverse
  let groups := (chunk3 ds).map (fun g => String.mk g.reverse)
  String.intercalate "," groups.reverse

/-- Python `f"\x7bn:,\x7d"` on an integer. -/
def intComma (n : Int) : String :=
  if n < 0 then "-" ++ natComma n.natAbs else natComma n.toNat

example : intComma 25000 = "25,000" := rfl
example : intComma 1234567 = "1,234,567" := rfl
example : intComma 0 = "0" := rfl
example : intComma (-1234) = "-1,234" := rfl

/-- The thousands-separator rendering the recommend formatter applies to a
price bound that passed the `> 0` test (so an int, or a bool in the
degenerate Python-subtyping case, where the comma format spec renders the
underlying 1 or 0). -/
def Json.fmtComma : Json → String
  | .int n => intComma n
  | .bool b => if b then "1" else "0"
  | _ => ""

/-- Take a prefix of the character list up to and including its last `\x7d`;
`none` when no `\x7d` occurs. -/
def takeThruLastRB : List Char → Option (List Char)
  | [] => none
  | c :: rest =>
    match takeThruLastRB rest with
    | some r => some (c :: r)
    | none => if c = '}' then some [c] else none

/-- The DOTALL search for a brace-delimited span: the span from the first left
brace to the last right brace after it, if any. -/
def extractBrace (s : String) : Option String :=
  match s.data.dropWhile (fun c => c != '{') with
  | [] => none
  | lb :: rest =>
    match takeThruLastRB rest with
    | none => none
    | some r => some (String.mk (lb :: r))

example : extractBrace "ab \x7b \"a\": 1 \x7d tail" = some "\x7b \"a\": 1 \x7d" := rfl
example : extractBrace "no json here" = none := rfl
example : extractBrace "\x7b\x7d" = some "\x7b\x7d" := rfl

/-- The external-call environment: `gen k` is the text of the `k`-th model call
(or a raised exception), `jl` is `json.loads` restricted to the extracted
brace span (see module docstring). -/
structure Env where
  gen : Nat → Except String String
  jl : String → Except String Obj

/-- A chat message (`st.session_state.messages` entry). -/
structure Msg where
  role : String
  content : String

/-- The role-colon-content join over the message log: the serialized
conversation context handed to the Recommender and Comparator. -/
def full_context_of (messages : List Msg) : String :=
  String.intercalate "\n" (messages.map (fun m => m.role ++ ": " ++ m.content))

/-- One iteration of the retry loop body of the classifier:
`generate_content`, extract the first brace span, `json.loads`; `none` when any
step raises (the except-continue of the loop). -/
def classify_attempt (env : Env) (k : Nat) : Option Obj :=
  match env.gen k with
  | .error _ => none
  | .ok text =>
    match extractBrace text with
    | none => none
    | some span =>
      match env.jl span with
      | .ok o => some o
      | .error _ => none

/-- The fixed classification returned after both classifier attempts fail. -/
def classifierErrorData : Obj :=
  [("action", Json.str "error"),
   ("response", Json.str "Sorry, I had trouble understanding that. Could you please rephrase?")]

/-- `determine_next_action(history, user_query)`: two-attempt classification
loop.  The second component of the pair is the next unused call index (so the number
of model calls made is that index minus `k`). -/
def determine_next_action (history : List Msg) (user_query : String) (env : Env) (k : Nat) :
    Obj × Nat :=
  match classify_attempt env k with
  | some o => (o, k + 1)
  | none =>
    match classify_attempt env (k + 1) with
    | some o => (o, k + 2)
    | none => (classifierErrorData, k + 2)

/-- Message of the `AttributeError` raised when `re.search` finds no brace span
and `.group(0)` is taken on `None`. -/
def attrErrMsg : String := "\x27NoneType\x27 object has no attribute \x27group\x27"

/-- `get_recommendations_and_analysis(full_context_query)`: one model call; any
exception is caught and converted to `\x7b"error": str(e), "recommendations": []\x7d`. -/
def get_recommendations_and_analysis (full_context_query : String) (env : Env) (k : Nat) :
    Obj × Nat :=
  ((match env.gen k with
    | .error e => [("error", Json.str e), ("recommendations", Json.arr [])]
    | .ok text =>
      match extractBrace text with
      | none => [("error", Json.str attrErrMsg), ("recommendations", Json.arr [])]
      | some span =>
        match env.jl span with
        | .ok o => o
        | .error e => [("error", Json.str e), ("recommendations", Json.arr [])]),
   k + 1)

/-- `compare_cars_with_ai(full_context_query)`: one model call; failures become
`\x7b"error": str(e), "comparison": []\x7d`. -/
def compare_cars_with_ai (full_context_query : String) (env : Env) (k : Nat) : Obj × Nat :=
  ((match env.gen k with
    | .error e => [("error", Json.str e), ("comparison", Json.arr [])]
    | .ok text =>
      match extractBrace text with
      | none => [("error", Json.str attrErrMsg), ("comparison", Json.arr [])]
      | some span =>
        match env.jl span with
        | .ok o => o
        | .error e => [("error", Json.str e), ("comparison", Json.arr [])]),
   k + 1)

/-- `analyze_specific_car_model(car_model)`: one model call; failures become
`\x7b"error": str(e)\x7d`. -/
def analyze_specific_car_model (car_model : String) (env : Env) (k : Nat) : Obj × Nat :=
  ((match env.gen k with
    | .error e => [("error", Json.str e)]
    | .ok text =>
      match extractBrace text with
      | none => [("error", Json.str attrErrMsg)]
      | some span =>
        match env.jl span with
        | .ok o => o
        | .error e => [("error", Json.str e)]),
   k + 1)

/-!
The `extract_car_models` regex,

  `(?:\b(?:vs|versus|compare|between|and)\b\s)?`
  `([A-Z][a-zA-Z0-9-]+\s(?:[A-Z][a-zA-Z0-9-]+-?)+`
  `|[A-Z][a-zA-Z0-9-]+\s[A-Z][a-zA-Z0-9-]+`
  `|[A-Z][a-zA-Z0-9-]+)`,

is translated as a direct scanner.  Notes justifying the translation:
the character class `[a-zA-Z0-9-]` contains no whitespace, so the greedy `+`
munch is maximal and `\s` succeeds exactly when the character right after the
maximal munch is whitespace (giving back characters can never expose a
whitespace character); alternations are tried left to right and the first
success wins, as in Python.  The inputs under study are ASCII, so the ASCII
readings of `[A-Z]`, `\w` and `\s` coincide with the unicode ones of Python.
-/

/-- The regex character class `[a-zA-Z0-9-]`. -/
def isWordy (c : Char) : Bool := c.isAlpha || c.isDigit || c == '-'

/-- Python `\s` (ASCII part). -/
def isSpaceCh (c : Char) : Bool :=
  c == ' ' || c == '\t' || c == '\n' || c == '\x0d' || c == '\x0b' || c == '\x0c'

/-- Python `\w` (ASCII part), used for `\b` boundaries. -/
def isWordCh (c : Char) : Bool := c.isAlpha || c.isDigit || c == '_'

/-- Match `[A-Z][a-zA-Z0-9-]+` at the head of the list (maximal munch);
returns the matched characters and the remainder. -/
def matchToken (cs : List Char) : Option (List Char × List Char) :=
  match cs with
  | [] => none
  | c :: rest =>
    if c.isUpper then
      let munch := rest.takeWhile isWordy
      if munch.isEmpty then none
      else some (c :: munch, rest.drop munch.length)
    else none

/-- Match `(?:[A-Z][a-zA-Z0-9-]+-?)+` (one or more tokens, each with an
optional trailing hyphen).  Fueled; callers pass `length + 1`, which is always
sufficient since every iteration consumes at least two characters. -/
def matchTokenSeq : Nat → List Char → Option (List Char × List Char)
  | 0, _ => none
  | fuel + 1, cs =>
    match matchToken cs with
    | none => none
    | some (t, rest) =>
      match rest with
      | '-' :: tl =>
        match matchTokenSeq fuel tl with
        | some (ts, r2) => some (t ++ '-' :: ts, r2)
        | none => some (t ++ ['-'], tl)
      | _ =>
        match matchTokenSeq fuel rest with
        | some (ts, r2) => some (t ++ ts, r2)
        | none => some (t, rest)

/-- First alternative `[A-Z][a-zA-Z0-9-]+\s(?:[A-Z][a-zA-Z0-9-]+-?)+`. -/
def matchAlt1 (cs : List Char) : Option (List Char × List Char) :=
  match matchToken cs with
  | none => none
  | some (t1, r1) =>
    match r1 with
    | [] => none
    | w :: r2 =>
      if isSpaceCh w then
        match matchTokenSeq (r2.length + 1) r2 with
        | none => none
        | some (ts, r3) => some (t1 ++ w :: ts, r3)
      else none

/-- Second alternative `[A-Z][a-zA-Z0-9-]+\s[A-Z][a-zA-Z0-9-]+`. -/
def matchAlt2 (cs : List Char) : Option (List Char × List Char) :=
  match matchToken cs with
  | none => none
  | some (t1, r1) =>
    match r1 with
    | [] => none
    | w :: r2 =>
      if isSpaceCh w then
        match matchToken r2 with
        | none => none
        | some (t2, r3) => some (t1 ++ w :: t2, r3)
      else none

/-- The capture group: the three alternatives in the order of the regex. -/
def matchGroup (cs : List Char) : Option (List Char × List Char) :=
  match matchAlt1 cs with
  | some r => some r
  | none =>
    match matchAlt2 cs with
    | some r => some r
    | none => matchToken cs

/-- Consume a connector literal at the head of the list; `none` when the
characters differ. -/
def dropLit : List Char → List Char → Option (List Char)
  | [], cs => some cs
  | _ :: _, [] => none
  | l :: ls, c :: cs => if c = l then dropLit ls cs else none

/-- Try `lit\b\s` at the head of the list: the literal, a word boundary after
it, then one whitespace character (whitespace is never a word character, so
the boundary check reduces to the whitespace check). -/
def tryConnLit (lit : String) (cs : List Char) : Option (List Char) :=
  match dropLit lit.data cs with
  | none => none
  | some rest =>
    match rest with
    | [] => none
    | w :: rest2 => if isSpaceCh w then some rest2 else none

/-- `(?:vs|versus|compare|between|and)\b\s` at the head of the list (the
leading `\b` is checked by the caller). -/
def matchConnectorFrom (cs : List Char) : Option (List Char) :=
  match tryConnLit "vs" cs with
  | some r => some r
  | none =>
    match tryConnLit "versus" cs with
    | some r => some r
    | none =>
      match tryConnLit "compare" cs with
      | some r => some r
      | none =>
        match tryConnLit "between" cs with
        | some r => some r
        | none => tryConnLit "and" cs

/-- `\b` before a connector (whose first character is a word character): holds
iff the previous character is absent or not a word character. -/
def prevIsNonWord : Option Char → Bool
  | none => true
  | some c => !isWordCh c

/-- Attempt the whole pattern at one position: the greedy optional connector
prefix first, falling back to the bare capture group, as the backtracking of
the Python engine does.  Returns the captured group and the remainder after the match. -/
def tryMatchAt (prev : Option Char) (cs : List Char) : Option (List Char × List Char) :=
  match (if prevIsNonWord prev then
           match matchConnectorFrom cs with
           | some rest => matchGroup rest
           | none => none
         else none) with
  | some r => some r
  | none => matchGroup cs

/-- `re.findall` scan: try the pattern at each position left to right,
resuming after each (non-overlapping) match; collects capture groups in order.
Fueled; `length + 1` is always sufficient since every step consumes at least
one character. -/
def scanModels : Nat → Option Char → List Char → List (List Char)
  | 0, _, _ => []
  | fuel + 1, prev, cs =>
    match cs with
    | [] => []
    | c :: rest =>
      match tryMatchAt prev cs with
      | some (g, r) => g :: scanModels fuel g.getLast? r
      | none => scanModels fuel (some c) rest

/-- Python `str.strip()` (ASCII whitespace; matches can only carry the `\s`
characters the scanner admitted). -/
def pyStrip (s : String) : String :=
  String.mk (((s.data.dropWhile isSpaceCh).reverse.dropWhile isSpaceCh).reverse)

/-- The stop-word set of the extractor. -/
def stopWords : List String := ["Compare", "Between", "And", "The", "A"]

/-- `extract_car_models(text)`: findall with the pattern above, then strip each
match and drop those equal to a stop word. -/
def extract_car_models (text : String) : List String :=
  let models := (scanModels (text.data.length + 1) none text.data).map String.mk
  (models.map pyStrip).filter (fun m => !stopWords.contains m)

example : extract_car_models "Compare Honda Civic vs Toyota Corolla" =
    ["Compare Honda", "Civic", "Toyota Corolla"] := rfl
example : extract_car_models "What\x27s the weather?" = ["What"] := rfl
example : extract_car_models "Tell me about the Ford F-150" = ["Tell", "Ford F-150"] := rfl
example : extract_car_models "Civic vs Corolla" = ["Civic", "Corolla"] := rfl
example : extract_car_models "compare Honda Civic and Toyota Corolla" =
    ["Honda Civic", "Toyota Corolla"] := rfl
example : extract_car_models "The A and the B2 car" = ["B2"] := rfl
example : extract_car_models "hello there" = [] := rfl

/-- Python equality of a JSON value with a string literal (`action == "..."` /
`action in [...]`): true exactly for the equal string. -/
def pyEqStr (j : Json) (s : String) : Bool :=
  match j with
  | .str t => t == s
  | _ => false

/-- The price part of the estimated-price line: `min_p > 0 and max_p > 0`
(short-circuit, with the Python `>` semantics) selects between the
thousands-separated range and the literal `"Not available"`. -/
def priceStr (minp maxp typ : Json) : Except String String :=
  match minp.gtZero with
  | .error e => .error e
  | .ok false => .ok "Not available"
  | .ok true =>
    match maxp.gtZero with
    | .error e => .error e
    | .ok false => .ok "Not available"
    | .ok true =>
      .ok ("$" ++ minp.fmtComma ++ " - $" ++ maxp.fmtComma ++ " (" ++ typ.toPyStr ++ ")")

/-- The recommend loop body for one recommendation item `r`. -/
def formatRecItem (r : Json) : Except String String :=
  match r.get "make" Json.null with
  | .error e => .error e
  | .ok mk =>
    match r.get "model" Json.null with
    | .error e => .error e
    | .ok md =>
      match r.get "summary" (Json.str "N/A") with
      | .error e => .error e
      | .ok sm =>
        match r.get "price_range" (Json.obj []) with
        | .error e => .error e
        | .ok pinfo =>
          match pinfo.get "min_price" (Json.int 0) with
          | .error e => .error e
          | .ok minp =>
            match pinfo.get "max_price" (Json.int 0) with
            | .error e => .error e
            | .ok maxp =>
              match pinfo.get "type" (Json.str "N/A") with
              | .error e => .error e
              | .ok typ =>
                match priceStr minp maxp typ with
                | .error e => .error e
                | .ok ps =>
                  .ok ("\n### 🚗 " ++ mk.toPyStr ++ " " ++ md.toPyStr ++
                       "\n- **Summary**: " ++ sm.toPyStr ++
                       "\n- **Estimated Price**: " ++ ps ++ "\n")

/-- The recommend loop over all items (exceptions abort the whole turn). -/
def formatRecItems : List Json → Except String String
  | [] => .ok ""
  | r :: rest =>
    match formatRecItem r with
    | .error e => .error e
    | .ok s =>
      match formatRecItems rest with
      | .error e => .error e
      | .ok t => .ok (s ++ t)

/-- The `action == "recommend"` branch of the dispatch block, applied to the
result of the Recommender. -/
def recommendBranch (recs : Obj) : Except String Json :=
  let rv := objGetD recs "recommendations" Json.null
  if rv.truthy then
    match rv.pyIter with
    | .error e => .error e
    | .ok items =>
      match formatRecItems items with
      | .error e => .error e
      | .ok body =>
        .ok (Json.str ("Based on your preferences, here are 3 solid options:\n" ++ body))
  else
    .ok (Json.str "Sorry, I couldn\x27t find good options with the provided details. Could you be more specific?")

/-- The rendering of an Analyzer result inside the `analyze` branch:
guard on a truthy `model` field, then direct subscriptions of `model` and
`overview` (the latter unguarded), `.get` defaults for everything else. -/
def analyzeBranchFormat (analysis : Obj) : Except String Json :=
  if (objGetD analysis "model" Json.null).truthy then
    match Json.idx (Json.obj analysis) "model" with
    | .error e => .error e
    | .ok mdl =>
      match Json.idx (Json.obj analysis) "overview" with
      | .error e => .error e
      | .ok ov =>
        match (objGetD analysis "pros" (Json.arr [])).pyIter with
        | .error e => .error e
        | .ok pros =>
          match (objGetD analysis "cons" (Json.arr [])).pyIter with
          | .error e => .error e
          | .ok cns =>
            .ok (Json.str ("### Analysis of the " ++ mdl.toPyStr ++
                 "\n**📘 Overview:** " ++ ov.toPyStr ++
                 "\n\n**✅ Pros:**\n" ++
                 String.join (pros.map (fun p => "- " ++ p.toPyStr ++ "\n")) ++
                 "\n**⚠️ Cons:**\n" ++
                 String.join (cns.map (fun c => "- " ++ c.toPyStr ++ "\n")) ++
                 "\n**👥 Ideal For:** " ++ (objGetD analysis "audience" (Json.str "N/A")).toPyStr ++
                 "\n**💰 Estimated Price:** " ++
                 (objGetD analysis "price_estimate_usd" (Json.str "N/A")).toPyStr))
  else
    .ok (Json.str "Sorry, I couldn\x27t analyze that model. Please be more specific.")

/-- The whole `action == "analyze"` branch: extractor on the latest query only,
first candidate (or the fixed couldn\x27t-identify message), Analyzer call,
rendering. -/
def analyzeBranch (env : Env) (prompt : String) (k : Nat) : Except String Json × Nat :=
  let candidates := extract_car_models prompt
  let model_name := match candidates with
    | [] => ""
    | c :: _ => c
  if model_name ≠ "" then
    let pr := analyze_specific_car_model model_name env k
    (analyzeBranchFormat pr.1, pr.2)
  else
    (.ok (Json.str "I couldn\x27t identify a specific car model to analyze. Please try again."), k)

/-- The compare loop body for one comparison item `car`: the model field is a
direct subscription, the rest use `.get` defaults and comma joins. -/
def formatCompareItem (car : Json) : Except String String :=
  match car.idx "model" with
  | .error e => .error e
  | .ok mdl =>
    match car.get "summary" (Json.str "N/A") with
    | .error e => .error e
    | .ok sm =>
      match car.get "strengths" (Json.arr []) with
      | .error e => .error e
      | .ok sts =>
        match pyJoin ", " sts with
        | .error e => .error e
        | .ok stLine =>
          match car.get "weaknesses" (Json.arr []) with
          | .error e => .error e
          | .ok wks =>
            match pyJoin ", " wks with
            | .error e => .error e
            | .ok wkLine =>
              .ok ("\n### 🚘 " ++ mdl.toPyStr ++
                   "\n- **Summary**: " ++ sm.toPyStr ++
                   "\n- **✅ Strengths**: " ++ stLine ++
                   "\n- **⚠️ Weaknesses**: " ++ wkLine ++ "\n")

/-- The compare loop over all items. -/
def formatCompareItems : List Json → Except String String
  | [] => .ok ""
  | car :: rest =>
    match formatCompareItem car with
    | .error e => .error e
    | .ok s =>
      match formatCompareItems rest with
      | .error e => .error e
      | .ok t => .ok (s ++ t)

/-- The `action == "compare"` branch of the dispatch block, applied to the
result of the Comparator. -/
def compareBranch (result : Obj) : Except String Json :=
  let cv := objGetD result "comparison" Json.null
  if cv.truthy then
    match cv.pyIter with
    | .error e => .error e
    | .ok items =>
      match formatCompareItems items with
      | .error e => .error e
      | .ok body => .ok (Json.str ("Here\x27s a comparison of your choices:\n" ++ body))
  else
    .ok (Json.str "Sorry, I couldn\x27t generate a comparison. Please mention at least two models clearly.")

/-- The dispatch block of the chat handler, given the already-classified
`action_data`: routes on `action_data.get("action", "error")` and produces the
`response_content` rendered to the user.  The `.1` of the pair is the produced value
(`.error` = an uncaught Python exception escaping the block), `.2` the next
unused model-call index. -/
def dispatch (env : Env) (action_data : Obj) (messages : List Msg) (prompt : String) (k : Nat) :
    Except String Json × Nat :=
  let action := objGetD action_data "action" (Json.str "error")
  if pyEqStr action "reject" || pyEqStr action "clarify" || pyEqStr action "answer_general" then
    (.ok (objGetD action_data "response"
        (Json.str "I\x27m not sure how to respond. Please try rephrasing.")), k)
  else if pyEqStr action "recommend" then
    let pr := get_recommendations_and_analysis (full_context_of messages) env k
    (recommendBranch pr.1, pr.2)
  else if pyEqStr action "analyze" then
    analyzeBranch env prompt k
  else if pyEqStr action "compare" then
    let pr := compare_cars_with_ai (full_context_of messages) env k
    (compareBranch pr.1, pr.2)
  else
    (.ok (objGetD action_data "response" (Json.str "I encountered an issue. Please try again.")), k)

/-- A stub environment: the model always replies with brace-free text and
parsing always fails. -/
def envNoJson : Env :=
  { gen := fun _ => .ok "no json here", jl := fun _ => .error "Expecting value" }

/-- The model reply of call `k` contains no parseable JSON object: either the
call raises, or no brace span exists, or `json.loads` rejects the span. -/
def ParseFailsAt (env : Env) (k : Nat) : Prop :=
  ∀ t, env.gen k = .ok t → ∀ s, extractBrace t = some s → ∃ e, env.jl s = .error e

lemma classify_attempt_eq_none (env : Env) (k : Nat) (h : ParseFailsAt env k) :
    classify_attempt env k = none := by
  unfold classify_attempt
  cases hg : env.gen k with
  | error e => rfl
  | ok t =>
    cases hb : extractBrace t with
    | none => simp [hb]
    | some s =>
      obtain ⟨e, he⟩ := h t hg s hb
      simp [hb, he]

lemma strNeEmptyIff (s : String) : s ≠ "" ↔ s.data ≠ [] :=
  ⟨fun h hd => h (String.ext hd), fun h he => h (congrArg String.data he)⟩

lemma strAppNeLeft (s t : String) (h : s ≠ "") : s ++ t ≠ "" := by
  rw [strNeEmptyIff] at h ⊢
  intro he
  exact h (List.append_eq_nil.mp he).1

lemma strAppNeRight (s t : String) (h : t ≠ "") : s ++ t ≠ "" := by
  rw [strNeEmptyIff] at h ⊢
  intro he
  exact h (List.append_eq_nil.mp he).2

lemma strAppendEmpty (s : String) : s ++ "" = s := by
  apply String.ext
  exact List.append_nil s.data

lemma strJoinNil : String.join ([] : List String) = "" := rfl

lemma matchToken_none {cs : List Char} (h : ∀ c ∈ cs, c.isUpper = false) :
    matchToken cs = none := by
  cases cs with
  | nil => rfl
  | cons c rest => simp [matchToken, h c (List.mem_cons_self c rest)]

lemma matchGroup_none {cs : List Char} (h : ∀ c ∈ cs, c.isUpper = false) :
    matchGroup cs = none := by
  have ht := matchToken_none h
  simp [matchGroup, matchAlt1, matchAlt2, ht]

lemma dropLit_sub {l cs r : List Char} (h : dropLit l cs = some r) : ∀ x ∈ r, x ∈ cs := by
  induction l generalizing cs with
  | nil =>
    simp [dropLit] at h
    subst h
    exact fun x hx => hx
  | cons a as ih =>
    cases cs with
    | nil => simp [dropLit] at h
    | cons c cs2 =>
      by_cases hc : c = a
      · simp [dropLit, hc] at h
        exact fun x hx => List.mem_cons_of_mem c (ih h x hx)
      · simp [dropLit, hc] at h

lemma tryConnLit_sub {lit : String} {cs r : List Char} (h : tryConnLit lit cs = some r) :
    ∀ x ∈ r, x ∈ cs := by
  unfold tryConnLit at h
  cases hd : dropLit lit.data cs with
  | none => simp [hd] at h
  | some rest =>
    cases rest with
    | nil => simp [hd] at h
    | cons w rest2 =>
      by_cases hw : isSpaceCh w = true
      · simp [hd, hw] at h
        subst h
        exact fun x hx => dropLit_sub hd x (List.mem_cons_of_mem w hx)
      · simp [hd, hw] at h

lemma matchConnectorFrom_sub {cs r : List Char} (h : matchConnectorFrom cs = some r) :
    ∀ x ∈ r, x ∈ cs := by
  unfold matchConnectorFrom at h
  cases h1 : tryConnLit "vs" cs with
  | some r1 => simp [h1] at h; subst h; exact tryConnLit_sub h1
  | none =>
    cases h2 : tryConnLit "versus" cs with
    | some r2 => simp [h1, h2] at h; subst h; exact tryConnLit_sub h2
    | none =>
      cases h3 : tryConnLit "compare" cs with
      | some r3 => simp [h1, h2, h3] at h; subst h; exact tryConnLit_sub h3
      | none =>
        cases h4 : tryConnLit "between" cs with
        | some r4 => simp [h1, h2, h3, h4] at h; subst h; exact tryConnLit_sub h4
        | none =>
          simp [h1, h2, h3, h4] at h
          exact tryConnLit_sub h

lemma tryMatchAt_none (prev : Option Char) {cs : List Char}
    (h : ∀ c ∈ cs, c.isUpper = false) : tryMatchAt prev cs = none := by
  have hg := matchGroup_none h
  unfold tryMatchAt
  cases hp : prevIsNonWord prev with
  | false => simp [hg]
  | true =>
    cases hc : matchConnectorFrom cs with
    | none => simp [hc, hg]
    | some rest =>
      have hr : ∀ c ∈ rest, c.isUpper = false :=
        fun c hcr => h c (matchConnectorFrom_sub hc c hcr)
      simp [hc, hg, matchGroup_none hr]

lemma scanModels_nil {fuel : Nat} {prev : Option Char} {cs : List Char}
    (h : ∀ c ∈ cs, c.isUpper = false) : scanModels fuel prev cs = [] := by
  induction fuel generalizing prev cs with
  | zero => rfl
  | succ n ih =>
    cases cs with
    | nil => rfl
    | cons c rest =>
      have ht := tryMatchAt_none prev h
      simp [scanModels, ht]
      exact ih (fun x hx => h x (List.mem_cons_of_mem c hx))

lemma recommendBranch_cases (recs : Obj) :
    (∃ e, recommendBranch recs = .error e) ∨
    (∃ s, recommendBranch recs = .ok (Json.str s) ∧ s ≠ "") := by
  cases h : (objGetD recs "recommendations" Json.null).truthy with
  | false =>
    right
    exact ⟨"Sorry, I couldn\x27t find good options with the provided details. Could you be more specific?",
      by simp [recommendBranch, h], by decide⟩
  | true =>
    cases hi : (objGetD recs "recommendations" Json.null).pyIter with
    | error e => left; exact ⟨e, by simp [recommendBranch, h, hi]⟩
    | ok items =>
      cases hf : formatRecItems items with
      | error e => left; exact ⟨e, by simp [recommendBranch, h, hi, hf]⟩
      | ok body =>
        right
        exact ⟨"Based on your preferences, here are 3 solid options:\n" ++ body,
          by simp [recommendBranch, h, hi, hf], strAppNeLeft _ _ (by decide)⟩

lemma compareBranch_cases (result : Obj) :
    (∃ e, compareBranch result = .error e) ∨
    (∃ s, compareBranch result = .ok (Json.str s) ∧ s ≠ "") := by
  cases h : (objGetD result "comparison" Json.null).truthy with
  | false =>
    right
    exact ⟨"Sorry, I couldn\x27t generate a comparison. Please mention at least two models clearly.",
      by simp [compareBranch, h], by decide⟩
  | true =>
    cases hi : (objGetD result "comparison" Json.null).pyIter with
    | error e => left; exact ⟨e, by simp [compareBranch, h, hi]⟩
    | ok items =>
      cases hf : formatCompareItems items with
      | error e => left; exact ⟨e, by simp [compareBranch, h, hi, hf]⟩
      | ok body =>
        right
        exact ⟨"Here\x27s a comparison of your choices:\n" ++ body,
          by simp [compareBranch, h, hi, hf], strAppNeLeft _ _ (by decide)⟩

lemma analyzeBranchFormat_cases (analysis : Obj) :
    (∃ e, analyzeBranchFormat analysis = .error e) ∨
    (∃ s, analyzeBranchFormat analysis = .ok (Json.str s) ∧ s ≠ "") := by
  cases h : (objGetD analysis "model" Json.null).truthy with
  | false =>
    right
    exact ⟨"Sorry, I couldn\x27t analyze that model. Please be more specific.",
      by simp [analyzeBranchFormat, h], by decide⟩
  | true =>
    cases h1 : Json.idx (Json.obj analysis) "model" with
    | error e => left; exact ⟨e, by simp [analyzeBranchFormat, h, h1]⟩
    | ok mdl =>
      cases h2 : Json.idx (Json.obj analysis) "overview" with
      | error e => left; exact ⟨e, by simp [analyzeBranchFormat, h, h1, h2]⟩
      | ok ov =>
        cases h3 : (objGetD analysis "pros" (Json.arr [])).pyIter with
        | error e => left; exact ⟨e, by simp [analyzeBranchFormat, h, h1, h2, h3]⟩
        | ok pros =>
          cases h4 : (objGetD analysis "cons" (Json.arr [])).pyIter with
          | error e => left; exact ⟨e, by simp [analyzeBranchFormat, h, h1, h2, h3, h4]⟩
          | ok cns =>
            right
            exact ⟨"### Analysis of the " ++ mdl.toPyStr ++
              "\n**📘 Overview:** " ++ ov.toPyStr ++
              "\n\n**✅ Pros:**\n" ++
              String.join (pros.map (fun p => "- " ++ p.toPyStr ++ "\n")) ++
              "\n**⚠️ Cons:**\n" ++
              String.join (cns.map (fun c => "- " ++ c.toPyStr ++ "\n")) ++
              "\n**👥 Ideal For:** " ++ (objGetD analysis "audience" (Json.str "N/A")).toPyStr ++
              "\n**💰 Estimated Price:** " ++
              (objGetD analysis "price_estimate_usd" (Json.str "N/A")).toPyStr,
              by simp [analyzeBranchFormat, h, h1, h2, h3, h4],
              strAppNeLeft _ _ (strAppNeRight _ _ (by decide))⟩

lemma analyzeBranch_cases (env : Env) (prompt : String) (k : Nat) :
    (∃ e, (analyzeBranch env prompt k).1 = .error e) ∨
    (∃ s, (analyzeBranch env prompt k).1 = .ok (Json.str s) ∧ s ≠ "") := by
  cases hc : extract_car_models prompt with
  | nil =>
    right
    exact ⟨"I couldn\x27t identify a specific car model to analyze. Please try again.",
      by simp [analyzeBranch, hc], by decide⟩
  | cons c cs =>
    by_cases hce : c = ""
    · right
      exact ⟨"I couldn\x27t identify a specific car model to analyze. Please try again.",
        by simp [analyzeBranch, hc, hce], by decide⟩
    · rcases analyzeBranchFormat_cases (analyze_specific_car_model c env k).1 with
        ⟨e, he⟩ | ⟨s, hs, hne⟩
      · left; exact ⟨e, by simp [analyzeBranch, hc, hce, he]⟩
      · right; exact ⟨s, by simp [analyzeBranch, hc, hce, hs], hne⟩

/-- C1: on the input "Compare Honda Civic vs Toyota Corolla" the extractor does
not return ["Honda Civic", "Toyota Corolla"]: the connector alternation of the
regex is lowercase-only, so the capitalized "Compare" is not stripped but glued
to "Honda" by the two-token alternative, and the stop-word filter (which only
drops matches exactly equal to "Compare") cannot remove it.  The actual value
is ["Compare Honda", "Civic", "Toyota Corolla"]. -/
theorem extract_on_compare_query_eval :
    extract_car_models "Compare Honda Civic vs Toyota Corolla" =
      ["Compare Honda", "Civic", "Toyota Corolla"] := rfl

/-- C3: on the latest query "Tell me about the Ford F-150" the extractor
returns ["Tell", "Ford F-150"] (the capitalized sentence-initial "Tell" is a
match and is not a stop word), so the analyze branch of the dispatcher passes
the first candidate "Tell" — not "Ford F-150" — to the Analyzer. -/
theorem extract_on_analyze_query_eval :
    extract_car_models "Tell me about the Ford F-150" = ["Tell", "Ford F-150"] ∧
    (∀ (env : Env) (k : Nat),
      analyzeBranch env "Tell me about the Ford F-150" k =
        (analyzeBranchFormat (analyze_specific_car_model "Tell" env k).1,
         (analyze_specific_car_model "Tell" env k).2)) :=
  ⟨rfl, fun _ _ => rfl⟩

/-- C10 counterexample: the extractor does not return the empty list on
the weather question. -/
theorem extract_weather_nonempty_cx :
    extract_car_models "What\x27s the weather?" ≠ [] := by decide

/-- C10 amended: on the weather question the extractor returns ["What"] (a
false positive of the capitalized-word heuristic); it returns the empty list
whenever the text contains no uppercase letter at all. -/
theorem extract_weather_and_no_upper :
    extract_car_models "What\x27s the weather?" = ["What"] ∧
    (∀ text : String, (∀ c ∈ text.data, c.isUpper = false) →
      extract_car_models text = []) := by
  refine ⟨rfl, fun text h => ?_⟩
  unfold extract_car_models
  simp [scanModels_nil h]

/-- C10 witness for the amended theorem: a concrete all-lowercase input. -/
theorem extract_no_upper_witness : extract_car_models "hello there" = [] :=
  extract_weather_and_no_upper.2 "hello there" (by decide)

/-- C2: against any model whose replies never contain parseable JSON (on both
attempts), the classifier makes exactly 2 model calls (call indices 0 and 1;
the returned next-call index is 2) and returns the fixed error classification;
it is a total function, so no exception escapes. -/
theorem classifier_retry_bound (history : List Msg) (user_query : String) (env : Env)
    (h0 : ParseFailsAt env 0) (h1 : ParseFailsAt env 1) :
    determine_next_action history user_query env 0 = (classifierErrorData, 2) := by
  unfold determine_next_action
  rw [classify_attempt_eq_none env 0 h0, classify_attempt_eq_none env 1 h1]

/-- C2 witness: the always-unparseable stub environment. -/
theorem classifier_retry_bound_witness :
    determine_next_action [] "hi" envNoJson 0 = (classifierErrorData, 2) :=
  classifier_retry_bound [] "hi" envNoJson
    (fun _ _ _ _ => ⟨"Expecting value", rfl⟩)
    (fun _ _ _ _ => ⟨"Expecting value", rfl⟩)

/-- C8: each executor makes exactly one model call (the returned next call
index is `k + 1`) for every environment — so none retries — and, whenever the
call raises or its reply has no parseable JSON, returns its in-band error
value: an error message with an empty `recommendations` list, an empty
`comparison` list, or an error-only object, respectively.  All three are total
functions of the environment, so no exception propagates to the caller. -/
theorem executors_single_call_inband (env : Env) (ctx car_model : String) (k : Nat) :
    (get_recommendations_and_analysis ctx env k).2 = k + 1 ∧
    (compare_cars_with_ai ctx env k).2 = k + 1 ∧
    (analyze_specific_car_model car_model env k).2 = k + 1 ∧
    (ParseFailsAt env k →
      (∃ e, (get_recommendations_and_analysis ctx env k).1 =
        [("error", Json.str e), ("recommendations", Json.arr [])]) ∧
      (∃ e, (compare_cars_with_ai ctx env k).1 =
        [("error", Json.str e), ("comparison", Json.arr [])]) ∧
      (∃ e, (analyze_specific_car_model car_model env k).1 = [("error", Json.str e)])) := by
  refine ⟨rfl, rfl, rfl, fun h => ?_⟩
  cases hg : env.gen k with
  | error e =>
    exact ⟨⟨e, by simp [get_recommendations_and_analysis, hg]⟩,
           ⟨e, by simp [compare_cars_with_ai, hg]⟩,
           ⟨e, by simp [analyze_specific_car_model, hg]⟩⟩
  | ok t =>
    cases hb : extractBrace t with
    | none =>
      exact ⟨⟨attrErrMsg, by simp [get_recommendations_and_analysis, hg, hb]⟩,
             ⟨attrErrMsg, by simp [compare_cars_with_ai, hg, hb]⟩,
             ⟨attrErrMsg, by simp [analyze_specific_car_model, hg, hb]⟩⟩
    | some s =>
      obtain ⟨e, he⟩ := h t hg s hb
      exact ⟨⟨e, by simp [get_recommendations_and_analysis, hg, hb, he]⟩,
             ⟨e, by simp [compare_cars_with_ai, hg, hb, he]⟩,
             ⟨e, by simp [analyze_specific_car_model, hg, hb, he]⟩⟩

/-- C8 witness: concrete instantiation at the unparseable stub environment. -/
theorem executors_single_call_inband_witness :
    (get_recommendations_and_analysis "ctx" envNoJson 0).2 = 0 + 1 ∧
    (∃ e, (get_recommendations_and_analysis "ctx" envNoJson 0).1 =
      [("error", Json.str e), ("recommendations", Json.arr [])]) ∧
    (∃ e, (analyze_specific_car_model "Civic" envNoJson 0).1 = [("error", Json.str e)]) := by
  have h := executors_single_call_inband envNoJson "ctx" "Civic" 0
  have hp := h.2.2.2 (fun _ _ _ _ => ⟨"Expecting value", rfl⟩)
  exact ⟨h.1, hp.1, hp.2.2⟩

/-- C5: for integer price bounds, the price part of the estimated-price line is
the thousands-separated "$min - $max (type)" exactly when both bounds are
positive, and the literal "Not available" otherwise; in particular 25000/35000
with type "New" gives "$25,000 - $35,000 (New)" and 0/0 gives "Not available". -/
theorem price_line_format :
    (∀ (a b : Int) (typ : Json),
      priceStr (Json.int a) (Json.int b) typ =
        .ok (if 0 < a ∧ 0 < b then
               "$" ++ intComma a ++ " - $" ++ intComma b ++ " (" ++ typ.toPyStr ++ ")"
             else "Not available")) ∧
    priceStr (Json.int 25000) (Json.int 35000) (Json.str "New") =
      .ok "$25,000 - $35,000 (New)" ∧
    priceStr (Json.int 0) (Json.int 0) (Json.str "N/A") = .ok "Not available" := by
  refine ⟨fun a b typ => ?_, rfl, rfl⟩
  by_cases ha : 0 < a
  · by_cases hb : 0 < b
    · simp [priceStr, Json.gtZero, ha, hb, Json.fmtComma]
    · simp [priceStr, Json.gtZero, ha, hb]
  · simp [priceStr, Json.gtZero, ha]

/-- C6: when the classified action is small_talk, clarify,
answer_general, reject, or error, the dispatcher returns the classified
`response` field verbatim and leaves the model-call index unchanged: no
executor runs and no further model call is made (small_talk and error reach
the fall-through branch, the other three the canned branch — both echo the
response field). -/
theorem canned_actions_verbatim (env : Env) (action_data : Obj) (messages : List Msg)
    (prompt : String) (k : Nat) (a r : Json)
    (ha : action_data.lookup "action" = some a)
    (hmem : a = Json.str "small_talk" ∨ a = Json.str "clarify" ∨ a = Json.str "answer_general" ∨
            a = Json.str "reject" ∨ a = Json.str "error")
    (hr : action_data.lookup "response" = some r) :
    dispatch env action_data messages prompt k = (.ok r, k) := by
  have hact : objGetD action_data "action" (Json.str "error") = a := by
    simp [objGetD, ha]
  have hr1 : objGetD action_data "response"
      (Json.str "I\x27m not sure how to respond. Please try rephrasing.") = r := by
    simp [objGetD, hr]
  have hr2 : objGetD action_data "response"
      (Json.str "I encountered an issue. Please try again.") = r := by
    simp [objGetD, hr]
  rcases hmem with h | h | h | h | h <;> subst h <;>
    simp [dispatch, hact, pyEqStr, hr1, hr2]

/-- C6 witness: the "hi" small-talk scenario. -/
theorem canned_actions_verbatim_witness :
    dispatch envNoJson
      [("action", Json.str "small_talk"), ("response", Json.str "Hello! How can I help?")]
      [] "hi" 0 = (.ok (Json.str "Hello! How can I help?"), 0) :=
  canned_actions_verbatim envNoJson
    [("action", Json.str "small_talk"), ("response", Json.str "Hello! How can I help?")]
    [] "hi" 0 (Json.str "small_talk") (Json.str "Hello! How can I help?")
    rfl (Or.inl rfl) rfl

/-- C9 counterexample: an unknown action value with a present response field
makes the dispatcher return that response field ("HELLO"), not a generic fixed
apology, so the response content does matter. -/
theorem fallback_returns_response_cx :
    dispatch envNoJson
      [("action", Json.str "frobnicate"), ("response", Json.str "HELLO")] [] "x" 0 =
      (.ok (Json.str "HELLO"), 0) ∧
    "HELLO" ≠ "I encountered an issue. Please try again." := ⟨rfl, by decide⟩

/-- C9 amended: any action value failing all six dispatcher tests (reject,
clarify, answer_general, recommend, analyze, compare) — which includes the
literal "error" and, via the `.get` default, a missing action field — reaches
the fall-through branch, which returns the `response` field of the classification
when present and the generic fixed apology "I encountered an issue. Please try
again." only when the response field is missing; no model call is made. -/
theorem fallback_branch_behavior (env : Env) (action_data : Obj) (messages : List Msg)
    (prompt : String) (k : Nat)
    (h1 : pyEqStr (objGetD action_data "action" (Json.str "error")) "reject" = false)
    (h2 : pyEqStr (objGetD action_data "action" (Json.str "error")) "clarify" = false)
    (h3 : pyEqStr (objGetD action_data "action" (Json.str "error")) "answer_general" = false)
    (h4 : pyEqStr (objGetD action_data "action" (Json.str "error")) "recommend" = false)
    (h5 : pyEqStr (objGetD action_data "action" (Json.str "error")) "analyze" = false)
    (h6 : pyEqStr (objGetD action_data "action" (Json.str "error")) "compare" = false) :
    dispatch env action_data messages prompt k =
      (.ok (objGetD action_data "response"
        (Json.str "I encountered an issue. Please try again.")), k) := by
  simp [dispatch, h1, h2, h3, h4, h5, h6]

/-- C9 witness: an error-action classification with a custom response is
echoed verbatim by the fall-through branch. -/
theorem fallback_branch_behavior_witness :
    dispatch envNoJson
      [("action", Json.str "error"), ("response", Json.str "Custom text")] [] "x" 3 =
      (.ok (Json.str "Custom text"), 3) :=
  fallback_branch_behavior envNoJson
    [("action", Json.str "error"), ("response", Json.str "Custom text")] [] "x" 3
    rfl rfl rfl rfl rfl rfl

/-- A stub environment whose Analyzer reply parses to an object holding only a
`model` field (well-formed JSON, but missing the `overview` key the dispatcher
subscripts directly). -/
def envModelOnly : Env :=
  { gen := fun _ => .ok "\x7b\x7d",
    jl := fun _ => .ok [("model", Json.str "Ford F-150")] }

/-- C4 counterexample: on the analyze action with an Analyzer reply lacking the
`overview` key, the dispatch block raises an uncaught KeyError
(the direct overview subscription) and produces no output at all. -/
theorem dispatch_uncaught_keyerror_cx :
    dispatch envModelOnly
      [("action", Json.str "analyze"),
       ("response", Json.str "Let me pull up the details for that model.")]
      [] "Tell me about the Ford F-150" 0 = (.error "KeyError", 1) := rfl

/-- C4 amended: for every classification and every model behaviour, the
dispatch block either raises an uncaught exception (possible only on the three
executor branches, for ill-shaped executor results), or returns a non-empty
text string, or — on the canned and fall-through branches — echoes the
`response` field of the classification verbatim, which may be empty or non-string. -/
theorem dispatch_output_shape (env : Env) (action_data : Obj) (messages : List Msg)
    (prompt : String) (k : Nat) :
    (∃ e, (dispatch env action_data messages prompt k).1 = .error e) ∨
    (∃ s, (dispatch env action_data messages prompt k).1 = .ok (Json.str s) ∧ s ≠ "") ∨
    (dispatch env action_data messages prompt k).1 =
      .ok (objGetD action_data "response"
        (Json.str "I\x27m not sure how to respond. Please try rephrasing.")) ∨
    (dispatch env action_data messages prompt k).1 =
      .ok (objGetD action_data "response"
        (Json.str "I encountered an issue. Please try again.")) := by
  by_cases hc1 : (pyEqStr (objGetD action_data "action" (Json.str "error")) "reject" ||
      pyEqStr (objGetD action_data "action" (Json.str "error")) "clarify" ||
      pyEqStr (objGetD action_data "action" (Json.str "error")) "answer_general") = true
  · right; right; left
    simp only [dispatch, hc1, if_true]
  · by_cases hc2 : pyEqStr (objGetD action_data "action" (Json.str "error")) "recommend" = true
    · rcases recommendBranch_cases
        (get_recommendations_and_analysis (full_context_of messages) env k).1 with
        ⟨e, he⟩ | ⟨s, hs, hne⟩
      · left; exact ⟨e, by simp [dispatch, hc1, hc2, he]⟩
      · right; left; exact ⟨s, by simp [dispatch, hc1, hc2, hs], hne⟩
    · by_cases hc3 : pyEqStr (objGetD action_data "action" (Json.str "error")) "analyze" = true
      · rcases analyzeBranch_cases env prompt k with ⟨e, he⟩ | ⟨s, hs, hne⟩
        · left; exact ⟨e, by simp [dispatch, hc1, hc2, hc3, he]⟩
        · right; left; exact ⟨s, by simp [dispatch, hc1, hc2, hc3, hs], hne⟩
      · by_cases hc4 : pyEqStr (objGetD action_data "action" (Json.str "error")) "compare" = true
        · rcases compareBranch_cases
            (compare_cars_with_ai (full_context_of messages) env k).1 with
            ⟨e, he⟩ | ⟨s, hs, hne⟩
          · left; exact ⟨e, by simp [dispatch, hc1, hc2, hc3, hc4, he]⟩
          · right; left; exact ⟨s, by simp [dispatch, hc1, hc2, hc3, hc4, hs], hne⟩
        · right; right; right
          simp [dispatch, hc1, hc2, hc3, hc4]

/-- A stub environment whose Analyzer reply parses to an object with only the
`model` and `overview` fields — all other keys of the expected AnalysisResult
shape are absent. -/
def envAnalysisSparse : Env :=
  { gen := fun _ => .ok "\x7b\x7d",
    jl := fun _ => .ok [("model", Json.str "Ford F-150"),
                        ("overview", Json.str "A solid full-size truck.")] }

/-- C7 counterexample: an Analyzer result missing the required pros, cons,
audience and price-estimate keys is not treated as failed: the dispatcher
renders a success output, patching each missing field with its per-field
default (empty bullet lists and "N/A"), instead of the failure message. -/
theorem analysis_defaults_patch_cx :
    dispatch envAnalysisSparse [("action", Json.str "analyze")]
      [] "Tell me about the Ford F-150" 0 =
      (.ok (Json.str "### Analysis of the Ford F-150\n**📘 Overview:** A solid full-size truck.\n\n**✅ Pros:**\n\n**⚠️ Cons:**\n\n**👥 Ideal For:** N/A\n**💰 Estimated Price:** N/A"), 1) ∧
    "### Analysis of the Ford F-150\n**📘 Overview:** A solid full-size truck.\n\n**✅ Pros:**\n\n**⚠️ Cons:**\n\n**👥 Ideal For:** N/A\n**💰 Estimated Price:** N/A" ≠
      "Sorry, I couldn\x27t analyze that model. Please be more specific." := ⟨rfl, by decide⟩

lemma formatRecItem_defaults_congr (r : Obj)
    (h1 : r.lookup "make" = none) (h2 : r.lookup "model" = none)
    (h3 : r.lookup "summary" = none) (h4 : r.lookup "price_range" = none) :
    formatRecItem (Json.obj r) = formatRecItem (Json.obj []) := by
  simp [formatRecItem, Json.get, objGetD, h1, h2, h3, h4]

/-- C7 amended: only the envelope keys decide whether a result is treated as
failed.  The recommend branch returns the fixed be-more-specific message when
the `recommendations` value is absent or falsy, the compare branch the fixed
comparison-failure message when the `comparison` value is absent or falsy, and
the analyze rendering the fixed analyze-failure message when the `model` field
is absent or falsy.  Every other absent key is patched with a per-field default
instead of failing the result: in analyze, absent pros/cons render as empty
bullet lists and absent audience/price estimate as "N/A"; in a recommendation
item, absent make/model render as None, absent summary and type as "N/A", and
absent price fields default to 0, giving the "Not available" price line; in a
comparison item, absent summary renders as "N/A" and absent
strengths/weaknesses as empty comma-joined lists.  The two directly-subscripted
keys — `overview` in the analyze rendering and `model` in a comparison item —
instead raise a KeyError when absent. -/
theorem envelope_keys_decide_failure :
    (∀ recs : Obj, (objGetD recs "recommendations" Json.null).truthy = false →
      recommendBranch recs =
        .ok (Json.str "Sorry, I couldn\x27t find good options with the provided details. Could you be more specific?")) ∧
    (∀ result : Obj, (objGetD result "comparison" Json.null).truthy = false →
      compareBranch result =
        .ok (Json.str "Sorry, I couldn\x27t generate a comparison. Please mention at least two models clearly.")) ∧
    (∀ analysis : Obj, (objGetD analysis "model" Json.null).truthy = false →
      analyzeBranchFormat analysis =
        .ok (Json.str "Sorry, I couldn\x27t analyze that model. Please be more specific.")) ∧
    (∀ (analysis : Obj) (m ov : Json),
      analysis.lookup "model" = some m → m.truthy = true →
      analysis.lookup "overview" = some ov →
      analysis.lookup "pros" = none → analysis.lookup "cons" = none →
      analysis.lookup "audience" = none → analysis.lookup "price_estimate_usd" = none →
      analyzeBranchFormat analysis =
        .ok (Json.str ("### Analysis of the " ++ m.toPyStr ++
          "\n**📘 Overview:** " ++ ov.toPyStr ++
          "\n\n**✅ Pros:**\n" ++ "\n**⚠️ Cons:**\n" ++
          "\n**👥 Ideal For:** " ++ "N/A" ++
          "\n**💰 Estimated Price:** " ++ "N/A"))) ∧
    (∀ r : Obj, r.lookup "make" = none → r.lookup "model" = none →
      r.lookup "summary" = none → r.lookup "price_range" = none →
      formatRecItem (Json.obj r) =
        .ok "\n### 🚗 None None\n- **Summary**: N/A\n- **Estimated Price**: Not available\n") ∧
    (∀ (r po : Obj) (a b : Int),
      r.lookup "make" = none → r.lookup "model" = none → r.lookup "summary" = none →
      r.lookup "price_range" = some (Json.obj po) →
      po.lookup "min_price" = some (Json.int a) → po.lookup "max_price" = some (Json.int b) →
      po.lookup "type" = none → 0 < a → 0 < b →
      formatRecItem (Json.obj r) =
        .ok ("\n### 🚗 " ++ "None" ++ " " ++ "None" ++ "\n- **Summary**: " ++ "N/A" ++
          "\n- **Estimated Price**: " ++
          ("$" ++ intComma a ++ " - $" ++ intComma b ++ " (" ++ "N/A" ++ ")") ++ "\n")) ∧
    (∀ (car : Obj) (m : Json), car.lookup "model" = some m →
      car.lookup "summary" = none → car.lookup "strengths" = none →
      car.lookup "weaknesses" = none →
      formatCompareItem (Json.obj car) =
        .ok ("\n### 🚘 " ++ m.toPyStr ++ "\n- **Summary**: " ++ "N/A" ++
          "\n- **✅ Strengths**: " ++ "\n- **⚠️ Weaknesses**: " ++ "\n")) ∧
    (∀ analysis : Obj, (objGetD analysis "model" Json.null).truthy = true →
      analysis.lookup "overview" = none →
      analyzeBranchFormat analysis = .error "KeyError") ∧
    (∀ car : Obj, car.lookup "model" = none →
      formatCompareItem (Json.obj car) = .error "KeyError") := by
  refine ⟨fun recs h => by simp [recommendBranch, h],
          fun result h => by simp [compareBranch, h],
          fun analysis h => by simp [analyzeBranchFormat, h],
          ?_, ?_, ?_, ?_, ?_, ?_⟩
  · intro analysis m ov hm hmt hov hp hc hau hpe
    have e1 : objGetD analysis "model" Json.null = m := by simp [objGetD, hm]
    have e2 : Json.idx (Json.obj analysis) "model" = .ok m := by simp [Json.idx, hm]
    have e3 : Json.idx (Json.obj analysis) "overview" = .ok ov := by simp [Json.idx, hov]
    have e4 : objGetD analysis "pros" (Json.arr []) = Json.arr [] := by simp [objGetD, hp]
    have e5 : objGetD analysis "cons" (Json.arr []) = Json.arr [] := by simp [objGetD, hc]
    have e6 : objGetD analysis "audience" (Json.str "N/A") = Json.str "N/A" := by
      simp [objGetD, hau]
    have e7 : objGetD analysis "price_estimate_usd" (Json.str "N/A") = Json.str "N/A" := by
      simp [objGetD, hpe]
    simp [analyzeBranchFormat, e1, hmt, e2, e3, e4, e5, e6, e7, Json.pyIter,
      strJoinNil, strAppendEmpty, show (Json.str "N/A").toPyStr = "N/A" from rfl]
  · intro r h1 h2 h3 h4
    exact (formatRecItem_defaults_congr r h1 h2 h3 h4).trans rfl
  · intro r po a b h1 h2 h3 hpr hmin hmax hty ha hb
    have g1 : (Json.obj r).get "make" Json.null = .ok Json.null := by
      simp [Json.get, objGetD, h1]
    have g2 : (Json.obj r).get "model" Json.null = .ok Json.null := by
      simp [Json.get, objGetD, h2]
    have g3 : (Json.obj r).get "summary" (Json.str "N/A") = .ok (Json.str "N/A") := by
      simp [Json.get, objGetD, h3]
    have g4 : (Json.obj r).get "price_range" (Json.obj []) = .ok (Json.obj po) := by
      simp [Json.get, objGetD, hpr]
    have g5 : (Json.obj po).get "min_price" (Json.int 0) = .ok (Json.int a) := by
      simp [Json.get, objGetD, hmin]
    have g6 : (Json.obj po).get "max_price" (Json.int 0) = .ok (Json.int b) := by
      simp [Json.get, objGetD, hmax]
    have g7 : (Json.obj po).get "type" (Json.str "N/A") = .ok (Json.str "N/A") := by
      simp [Json.get, objGetD, hty]
    simp [formatRecItem, g1, g2, g3, g4, g5, g6, g7, priceStr, Json.gtZero, ha, hb,
      Json.fmtComma, show Json.null.toPyStr = "None" from rfl,
      show (Json.str "N/A").toPyStr = "N/A" from rfl]
  · intro car m hm hsm hst hwk
    have g1 : Json.idx (Json.obj car) "model" = .ok m := by simp [Json.idx, hm]
    have g2 : (Json.obj car).get "summary" (Json.str "N/A") = .ok (Json.str "N/A") := by
      simp [Json.get, objGetD, hsm]
    have g3 : (Json.obj car).get "strengths" (Json.arr []) = .ok (Json.arr []) := by
      simp [Json.get, objGetD, hst]
    have g4 : (Json.obj car).get "weaknesses" (Json.arr []) = .ok (Json.arr []) := by
      simp [Json.get, objGetD, hwk]
    simp [formatCompareItem, g1, g2, g3, g4, pyJoin, Json.pyIter, pyJoinStrs,
      show String.intercalate ", " [] = "" from rfl, strAppendEmpty,
      show (Json.str "N/A").toPyStr = "N/A" from rfl]
  · intro analysis htr hov
    cases hm : analysis.lookup "model" with
    | none => simp [objGetD, hm, Json.truthy] at htr
    | some m =>
      have g1 : Json.idx (Json.obj analysis) "model" = .ok m := by simp [Json.idx, hm]
      have g2 : Json.idx (Json.obj analysis) "overview" = .error "KeyError" := by
        simp [Json.idx, hov]
      simp [analyzeBranchFormat, htr, g1, g2]
  · intro car hm
    have g1 : Json.idx (Json.obj car) "model" = .error "KeyError" := by simp [Json.idx, hm]
    simp [formatCompareItem, g1]

/-- C7 witness for the amended theorem: concrete instantiations of the
analyze-defaults conjunct (a sparse analysis object), the falsy-envelope
recommend conjunct, and the missing-model comparison-item conjunct. -/
theorem envelope_keys_decide_failure_witness :
    analyzeBranchFormat [("model", Json.str "Ford F-150"), ("overview", Json.str "Solid.")] =
      .ok (Json.str ("### Analysis of the " ++ (Json.str "Ford F-150").toPyStr ++
        "\n**📘 Overview:** " ++ (Json.str "Solid.").toPyStr ++
        "\n\n**✅ Pros:**\n" ++ "\n**⚠️ Cons:**\n" ++
        "\n**👥 Ideal For:** " ++ "N/A" ++
        "\n**💰 Estimated Price:** " ++ "N/A")) ∧
    recommendBranch [("recommendations", Json.int 0)] =
      .ok (Json.str "Sorry, I couldn\x27t find good options with the provided details. Could you be more specific?") ∧
    formatCompareItem (Json.obj [("summary", Json.str "A summary.")]) = .error "KeyError" :=
  ⟨envelope_keys_decide_failure.2.2.2.1
    [("model", Json.str "Ford F-150"), ("overview", Json.str "Solid.")]
    (Json.str "Ford F-150") (Json.str "Solid.") rfl rfl rfl rfl rfl rfl rfl,
   envelope_keys_decide_failure.1 [("recommendations", Json.int 0)] rfl,
   envelope_keys_decide_failure.2.2.2.2.2.2.2.2 [("summary", Json.str "A summary.")] rfl⟩
